import Mathlib

/-!
Verification of the `nnz` Go package: nullable primitive wrapper types
(Bool, Int, Int64, Float64, String, Time) whose zero value encodes SQL/JSON
null.  Each wrapper's `Scan`, `Value`, `MarshalJSON`, `UnmarshalJSON` (and,
for `Time`, `UnmarshalText`, `GobEncode`, `GobDecode`) is embedded as an
executable Lean function.  Go's in-place mutation with an error return is
modelled by explicit state passing: a mutating method on a wrapper holding
`old` returns a pair `(new, err?)`; the pure methods (`Value`,
`MarshalJSON`) return `(result, err?)` mirroring Go's multiple returns.

Go's `int`/`int64` are modelled as `ℤ` (the conversions `int64(i)`/`Int(v)`
exercised by this library are lossless on 64-bit platforms and no overflow
path is reachable from the verified properties); `float64` is modelled as
`ℚ` (the library performs no floating-point arithmetic: only comparison
with zero and identity moves of the payload).
-/

/-- Model of Go `time.Time` restricted to the fields this library observes:
a calendar instant in UTC.  The zero value corresponds to Go's zero time
`0001-01-01T00:00:00Z`. -/
structure GoTime where
  year : Nat
  month : Nat
  day : Nat
  hour : Nat
  minute : Nat
  second : Nat
deriving DecidableEq, Repr

/-- Go's zero `time.Time` (the package-level `var zt time.Time`). -/
def goZeroTime : GoTime := ⟨1, 1, 1, 0, 0, 0⟩

/-- Model of `time.Time.IsZero`. -/
def GoTime.IsZero (t : GoTime) : Bool := t = goZeroTime

/-- Dynamically typed `database/sql/driver.Value`: the closed set of
representations a driver hands to `Scan` or accepts from `Value`.
`bytes` carries the text the `[]byte` payload decodes to (the only use the
source makes of a byte-slice payload is the conversion `String(v)`). -/
inductive DriverValue where
  | null : DriverValue
  | int64 : ℤ → DriverValue
  | float : ℚ → DriverValue
  | bool : Bool → DriverValue
  | str : String → DriverValue
  | bytes : String → DriverValue
  | time : GoTime → DriverValue
deriving DecidableEq, Repr

/-- The string Go's `fmt` verb `%T` prints for each dynamic type. -/
def DriverValue.goTypeName : DriverValue → String
  | .null => "<nil>"
  | .int64 _ => "int64"
  | .float _ => "float64"
  | .bool _ => "bool"
  | .str _ => "string"
  | .bytes _ => "[]uint8"
  | .time _ => "time.Time"

/-- Generic JSON value as produced by `encoding/json.Unmarshal` into an
`interface\x7b\x7d`.  Per the `encoding/json` documentation the dynamic
type of the result is one of: `nil`, `bool`, `float64`, `string`,
`[]interface\x7b\x7d`, `map[string]interface\x7b\x7d`.  The composite kinds
(array/object) are omitted: no verified property feeds a JSON array or
object to a wrapper.  Crucially, `time.Time` is NOT among the possible
dynamic types, so the `v.(time.Time)` arm of the source's
`Time.UnmarshalJSON` can never match. -/
inductive Jval where
  | null : Jval
  | bool : Bool → Jval
  | num : ℚ → Jval
  | str : String → Jval
deriving DecidableEq, Repr

deriving instance DecidableEq for Except

/-- The string `%T` prints for the dynamic type of a generic JSON value. -/
def Jval.goTypeName : Jval → String
  | .null => "<nil>"
  | .bool _ => "bool"
  | .num _ => "float64"
  | .str _ => "string"

/-- The double-quote character, written via its code point. -/
def quoteChar : Char := Char.ofNat 34

/-- The backslash character, written via its code point. -/
def backslashChar : Char := Char.ofNat 92

def digitVal (c : Char) : Nat := c.toNat - 48

def allDigits (l : List Char) : Bool := l.all (fun c => c.isDigit)

def digitsToNat (l : List Char) : Nat :=
  l.foldl (fun acc c => acc * 10 + digitVal c) 0

/-- Modelled from the spec: body of a JSON string literal (the characters
after the opening quote).  The model accepts a run of characters free of
quotes and escapes, closed by a final quote; escape sequences are outside
the verified properties. -/
def parseStrBody (l : List Char) : Option String :=
  match l.getLast? with
  | some c =>
    if c = quoteChar then
      let mid := l.dropLast
      if mid.all (fun ch => ch ≠ quoteChar && ch ≠ backslashChar) then
        some (String.mk mid)
      else none
    else none
  | none => none

/-- Modelled from the spec: a JSON number literal, `-?digits(.digits)?`
(exponent forms are outside the verified properties).  JSON numbers decode
through a `float64` intermediate; the model reads them as exact rationals. -/
def parseNumBody (l : List Char) : Option ℚ :=
  let signAndRest : Bool × List Char :=
    match l with
    | c :: rest => if c = '-' then (true, rest) else (false, l)
    | [] => (false, [])
  let neg := signAndRest.1
  let body := signAndRest.2
  let q? : Option ℚ :=
    match body.splitOn '.' with
    | [ip] =>
      if ip ≠ [] && allDigits ip then some (mkRat (digitsToNat ip : ℤ) 1)
      else none
    | [ip, fp] =>
      if ip ≠ [] && fp ≠ [] && allDigits ip && allDigits fp then
        some (mkRat
          ((digitsToNat ip : ℤ) * (10 : ℤ) ^ fp.length + (digitsToNat fp : ℤ))
          ((10 : ℕ) ^ fp.length))
      else none
    | _ => none
  match q? with
  | some q => some (if neg then -q else q)
  | none => none

/-- Modelled from the spec: `encoding/json.Unmarshal` of a JSON text
fragment into a generic value (the stdlib parser is not part of this
repository).  Syntactically invalid text yields a parse error, which the
wrappers propagate unchanged. -/
def jsonParse (s : String) : Except String Jval :=
  if s = "null" then .ok .null
  else if s = "true" then .ok (.bool true)
  else if s = "false" then .ok (.bool false)
  else
    match s.toList with
    | [] => .error "unexpected end of JSON input"
    | c :: rest =>
      if c = quoteChar then
        match parseStrBody rest with
        | some body => .ok (.str body)
        | none => .error "invalid JSON string literal"
      else
        match parseNumBody (c :: rest) with
        | some q => .ok (.num q)
        | none => .error ("invalid character in JSON text " ++ s)

def quoteStr : String := quoteChar.toString

/-- Modelled from the spec: rendering of a rational standing for a Go
number (`json.Marshal` of an `int`, `int64` or `float64`).  Integral values
render as their decimal digits; the non-integral branch is a placeholder
(no verified property renders a non-integral number). -/
def renderNum (q : ℚ) : String :=
  if q.den = 1 then toString q.num
  else toString q.num ++ "/" ++ toString q.den

/-- Modelled from the spec: `encoding/json.Marshal` of the generic values
this library emits. -/
def jsonRender : Jval → String
  | .null => "null"
  | .bool true => "true"
  | .bool false => "false"
  | .num q => renderNum q
  | .str s => quoteStr ++ s ++ quoteStr

/-- Go's conversion from `float64` to an integer type: truncation toward
zero (exercised by `Int(v)` / `Int64(v)` on the `float64` a JSON number
decodes to). -/
def goTrunc (q : ℚ) : ℤ :=
  if 0 ≤ q.num then q.num / (q.den : ℤ)
  else -((-q.num) / (q.den : ℤ))

def pad2 (n : Nat) : String :=
  if n < 10 then "0" ++ toString n else toString n

def pad4 (n : Nat) : String :=
  if n < 10 then "000" ++ toString n
  else if n < 100 then "00" ++ toString n
  else if n < 1000 then "0" ++ toString n
  else toString n

/-- Modelled from the spec: RFC3339 rendering of an instant, as
`json.Marshal` of a `time.Time` produces (a quoted timestamp literal).
The model renders UTC instants with a `Z` suffix. -/
def formatRFC3339 (t : GoTime) : String :=
  pad4 t.year ++ "-" ++ pad2 t.month ++ "-" ++ pad2 t.day ++ "T" ++
    pad2 t.hour ++ ":" ++ pad2 t.minute ++ ":" ++ pad2 t.second ++ "Z"

/-- Modelled from the spec: `time.Parse(time.RFC3339, s)` (the stdlib
parser is not part of this repository).  The model accepts the
`YYYY-MM-DDTHH:MM:SSZ` shape with component range checks; offset and
fractional-second forms are outside the verified properties. -/
def parseRFC3339 (s : String) : Option GoTime :=
  match s.toList with
  | [y1, y2, y3, y4, s1, mo1, mo2, s2, d1, d2, tc,
     h1, h2, c1, mi1, mi2, c2, se1, se2, z] =>
    if allDigits [y1, y2, y3, y4, mo1, mo2, d1, d2, h1, h2, mi1, mi2, se1, se2]
        && s1 = '-' && s2 = '-' && tc = 'T' && c1 = ':' && c2 = ':' && z = 'Z'
    then
      let t : GoTime :=
        ⟨digitsToNat [y1, y2, y3, y4], digitsToNat [mo1, mo2],
         digitsToNat [d1, d2], digitsToNat [h1, h2],
         digitsToNat [mi1, mi2], digitsToNat [se1, se2]⟩
      if 1 ≤ t.month && t.month ≤ 12 && 1 ≤ t.day && t.day ≤ 31
          && t.hour ≤ 23 && t.minute ≤ 59 && t.second ≤ 59
      then some t
      else none
    else none
  | _ => none

/-- Modelled from the spec: `time.Time.GobEncode`/`MarshalBinary`, the
platform's standard binary timestamp codec, as an injective component
encoding. -/
def timeBinary (t : GoTime) : List Nat :=
  [t.year, t.month, t.day, t.hour, t.minute, t.second]

/-- Modelled from the spec: `time.Time.UnmarshalBinary`, inverse of
`timeBinary`. -/
def timeUnBinary : List Nat → Option GoTime
  | [y, mo, d, h, mi, s] => some ⟨y, mo, d, h, mi, s⟩
  | _ => none

namespace nnz

/-- Source `Bool.Scan` (src part_000 lines 14-26): nil sets false; a `bool` input
is stored; anything else is a type-mismatch error and the wrapper keeps its
prior value. -/
def Bool.Scan (b : Bool) (v : DriverValue) : Bool × Option String :=
  match v with
  | .null => (false, none)
  | .bool x => (x, none)
  | _ => (b, some ("nnz: scanning *nnz.Bool, got " ++ v.goTypeName))

/-- Source `Bool.Value` (lines 28-33). -/
def Bool.Value (b : Bool) : DriverValue × Option String :=
  if b = false then (.null, none) else (.bool b, none)

/-- Source `Bool.MarshalJSON` (lines 35-40). -/
def Bool.MarshalJSON (b : Bool) : String × Option String :=
  if b = false then (jsonRender .null, none) else (jsonRender (.bool b), none)

/-- Source `Bool.UnmarshalJSON` (lines 42-56): parse to a generic value, then
null sets false, a JSON boolean is stored, any other kind is a
type-mismatch error.  In the source's final `else`, `v` is the variable
bound by the failed `v.(bool)` assertion — a zero `bool`, not the input —
so the `%T` verb prints `bool` whatever the input's kind was. -/
def Bool.UnmarshalJSON (b : Bool) (data : String) : Bool × Option String :=
  match jsonParse data with
  | .error err => (b, some err)
  | .ok .null => (false, none)
  | .ok (.bool x) => (x, none)
  | .ok _ => (b, some "nnz: unmarshaling *nnz.Bool, got bool")

/-- Source `Int.Scan` (lines 63-75): nil sets 0; an `int64` input is stored. -/
def Int.Scan (i : ℤ) (v : DriverValue) : ℤ × Option String :=
  match v with
  | .null => (0, none)
  | .int64 x => (x, none)
  | _ => (i, some ("nnz: scanning *nnz.Int, got " ++ v.goTypeName))

/-- Source `Int.Value` (lines 78-83): zero maps to the null sentinel, otherwise
`int64(i)`. -/
def Int.Value (i : ℤ) : DriverValue × Option String :=
  if i = 0 then (.null, none) else (.int64 i, none)

/-- Source `Int.MarshalJSON` (lines 86-91). -/
def Int.MarshalJSON (i : ℤ) : String × Option String :=
  if i = 0 then (jsonRender .null, none) else (jsonRender (.num (i : ℚ)), none)

/-- Source `Int.UnmarshalJSON` (lines 94-108): a JSON number arrives as a
`float64` and is narrowed by Go's integer conversion (truncation toward
zero).  In the final `else`, `v` is the shadowed zero `float64` from the
failed assertion, so the error always says `got float64`. -/
def Int.UnmarshalJSON (i : ℤ) (data : String) : ℤ × Option String :=
  match jsonParse data with
  | .error err => (i, some err)
  | .ok .null => (0, none)
  | .ok (.num x) => (goTrunc x, none)
  | .ok _ => (i, some "nnz: unmarshaling *nnz.Int, got float64")

/-- Source `Int64.Scan` (lines 115-127). -/
def Int64.Scan (i : ℤ) (v : DriverValue) : ℤ × Option String :=
  match v with
  | .null => (0, none)
  | .int64 x => (x, none)
  | _ => (i, some ("nnz: scanning *nnz.Int64, got " ++ v.goTypeName))

/-- Source `Int64.Value` (lines 130-135). -/
def Int64.Value (i : ℤ) : DriverValue × Option String :=
  if i = 0 then (.null, none) else (.int64 i, none)

/-- Source `Int64.MarshalJSON` (lines 138-143). -/
def Int64.MarshalJSON (i : ℤ) : String × Option String :=
  if i = 0 then (jsonRender .null, none) else (jsonRender (.num (i : ℚ)), none)

/-- Source `Int64.UnmarshalJSON` (lines 146-160).  As for `Int`, the
error arm prints the shadowed assertion variable: always `got float64`. -/
def Int64.UnmarshalJSON (i : ℤ) (data : String) : ℤ × Option String :=
  match jsonParse data with
  | .error err => (i, some err)
  | .ok .null => (0, none)
  | .ok (.num x) => (goTrunc x, none)
  | .ok _ => (i, some "nnz: unmarshaling *nnz.Int64, got float64")

/-- Source `Float64.Scan` (lines 167-179). -/
def Float64.Scan (f : ℚ) (v : DriverValue) : ℚ × Option String :=
  match v with
  | .null => (0, none)
  | .float x => (x, none)
  | _ => (f, some ("nnz: scanning *nnz.Float64, got " ++ v.goTypeName))

/-- Source `Float64.Value` (lines 182-187): zero maps to the null sentinel,
otherwise the value is returned as a `float64` (not converted to an
integer). -/
def Float64.Value (f : ℚ) : DriverValue × Option String :=
  if f = 0 then (.null, none) else (.float f, none)

/-- Source `Float64.MarshalJSON` (lines 190-195). -/
def Float64.MarshalJSON (f : ℚ) : String × Option String :=
  if f = 0 then (jsonRender .null, none) else (jsonRender (.num f), none)

/-- Source `Float64.UnmarshalJSON` (lines 198-212).  The error arm
prints the shadowed zero `float64`: always `got float64`. -/
def Float64.UnmarshalJSON (f : ℚ) (data : String) : ℚ × Option String :=
  match jsonParse data with
  | .error err => (f, some err)
  | .ok .null => (0, none)
  | .ok (.num x) => (x, none)
  | .ok _ => (f, some "nnz: unmarshaling *nnz.Float64, got float64")

/-- Source `String.Scan` (lines 219-233): nil sets ""; both a byte sequence and a
text value are accepted. -/
def String.Scan (s : String) (v : DriverValue) : String × Option String :=
  match v with
  | .null => ("", none)
  | .bytes x => (x, none)
  | .str x => (x, none)
  | _ => (s, some ("nnz: scanning *nnz.String, got " ++ v.goTypeName))

/-- Source `String.Value` (lines 236-241). -/
def String.Value (s : String) : DriverValue × Option String :=
  if s = "" then (.null, none) else (.str s, none)

/-- Source `String.MarshalJSON` (lines 244-249). -/
def String.MarshalJSON (s : String) : String × Option String :=
  if s = "" then (jsonRender .null, none) else (jsonRender (.str s), none)

/-- Source `String.UnmarshalJSON` (lines 252-266).  The error arm
prints the shadowed zero `string`: always `got string`. -/
def String.UnmarshalJSON (s : String) (data : String) : String × Option String :=
  match jsonParse data with
  | .error err => (s, some err)
  | .ok .null => ("", none)
  | .ok (.str x) => (x, none)
  | .ok _ => (s, some "nnz: unmarshaling *nnz.String, got string")

/-- Source `Time.Scan` (lines 275-287): nil sets the zero time; a native
`time.Time` input is stored. -/
def Time.Scan (t : GoTime) (v : DriverValue) : GoTime × Option String :=
  match v with
  | .null => (goZeroTime, none)
  | .time x => (x, none)
  | _ => (t, some ("nnz: scanning *nnz.Time, got " ++ v.goTypeName))

/-- Source `Time.Value` (lines 290-298). -/
def Time.Value (t : GoTime) : DriverValue × Option String :=
  if t.IsZero then (.null, none) else (.time t, none)

/-- Source `Time.MarshalJSON` (lines 301-308): a non-zero time marshals as
`json.Marshal(time.Time(t))`, i.e. a quoted RFC3339 timestamp literal. -/
def Time.MarshalJSON (t : GoTime) : String × Option String :=
  if t.IsZero then (jsonRender .null, none)
  else (jsonRender (.str (formatRFC3339 t)), none)

/-- Source `Time.UnmarshalJSON` (lines 311-325).  The source parses into an
`interface\x7b\x7d` and then asserts `v.(time.Time)`; since generic JSON
decoding only ever produces nil/bool/float64/string (and composites),
that assertion can never hold, so every parsed non-null value falls to the
type-mismatch arm.  The model reflects this: `Jval` has no timestamp
constructor, and every `.ok` value other than null errors.  The error text
prints the shadowed zero `time.Time` bound by the failed assertion, so it
always says `got time.Time`, never the input's kind. -/
def Time.UnmarshalJSON (t : GoTime) (data : String) : GoTime × Option String :=
  match jsonParse data with
  | .error err => (t, some err)
  | .ok .null => (goZeroTime, none)
  | .ok _ => (t, some "nnz: unmarshaling *nnz.Time, got time.Time")

/-- Source `Time.UnmarshalText` (lines 328-343): empty text sets the zero time;
otherwise the text is parsed as RFC3339, storing the instant on success
and returning the parser's error (wrapper untouched) on failure. -/
def Time.UnmarshalText (t : GoTime) (data : String) : GoTime × Option String :=
  if data = "" then (goZeroTime, none)
  else
    match parseRFC3339 data with
    | some nt => (nt, none)
    | none =>
      (t, some ("parsing time " ++ quoteStr ++ data ++ quoteStr ++
        " as RFC3339: cannot parse"))

/-- Source `Time.GobEncode` (lines 346-348): unconditional delegation to the
timestamp's own binary codec — no zero check, no null substitution. -/
def Time.GobEncode (t : GoTime) : List Nat × Option String :=
  (timeBinary t, none)

/-- Source `Time.GobDecode` (lines 351-361): decode the binary form, storing the
result on success. -/
def Time.GobDecode (t : GoTime) (data : List Nat) : GoTime × Option String :=
  match timeUnBinary data with
  | some tm => (tm, none)
  | none => (t, some "Time.UnmarshalBinary: invalid length")

end nnz

example : jsonParse "null" = .ok .null := by decide
example : jsonParse "3.5" = .ok (.num (mkRat 7 2)) := by decide
example : jsonParse "42" = .ok (.num 42) := by decide
example : jsonParse "-3" = .ok (.num (mkRat (-3) 1)) := by decide
example : (jsonParse "\x7b").toOption = none := by decide
example : parseRFC3339 "2023-01-02T15:04:05Z" = some ⟨2023, 1, 2, 15, 4, 5⟩ := by decide
example : parseRFC3339 "garbage" = none := by decide
example : formatRFC3339 ⟨2023, 1, 2, 15, 4, 5⟩ = "2023-01-02T15:04:05Z" := by decide
example : goTrunc (mkRat 7 2) = 3 := by decide
example : goTrunc (mkRat (-7) 2) = -3 := by decide
example : jsonParse (quoteStr ++ "2023-01-02T15:04:05Z" ++ quoteStr) = .ok (.str "2023-01-02T15:04:05Z") := by decide

/-- Dynamic-type test: is a driver value an `int64`? -/
def DriverValue.isInt64 : DriverValue → Bool
  | .int64 _ => true
  | _ => false

/-- The dynamic types `Bool.Scan` accepts besides nil. -/
def boolAccepts : DriverValue → Bool
  | .bool _ => true
  | _ => false

/-- The dynamic types `Int.Scan`/`Int64.Scan` accept besides nil. -/
def int64Accepts : DriverValue → Bool
  | .int64 _ => true
  | _ => false

/-- The dynamic types `Float64.Scan` accepts besides nil. -/
def floatAccepts : DriverValue → Bool
  | .float _ => true
  | _ => false

/-- The dynamic types `String.Scan` accepts besides nil. -/
def stringAccepts : DriverValue → Bool
  | .bytes _ => true
  | .str _ => true
  | _ => false

/-- The dynamic types `Time.Scan` accepts besides nil. -/
def timeAccepts : DriverValue → Bool
  | .time _ => true
  | _ => false

/-- Is a generic JSON value of boolean kind? -/
def jsonKindBool : Jval → Bool
  | .bool _ => true
  | _ => false

/-- Is a generic JSON value of number kind? -/
def jsonKindNum : Jval → Bool
  | .num _ => true
  | _ => false

/-- Is a generic JSON value of string kind? -/
def jsonKindStr : Jval → Bool
  | .str _ => true
  | _ => false

/-- Does the pattern match a leading segment of the character list? -/
def leadMatch : List Char → List Char → Bool
  | [], _ => true
  | _ :: _, [] => false
  | a :: pa, b :: pb => a = b && leadMatch pa pb

/-- Does the pattern occur as a contiguous segment of the list? -/
def containsSeg (pat : List Char) : List Char → Bool
  | [] => leadMatch pat []
  | c :: cs => leadMatch pat (c :: cs) || containsSeg pat cs

/-- Test `strContains s pat`: does `pat` occur as a contiguous substring of `s`?
Used to state that an error message mentions a type name. -/
def strContains (s pat : String) : Bool := containsSeg pat.toList s.toList

example : strContains "nnz: scanning *nnz.Bool, got string" "*nnz.Bool" = true := by decide
example : strContains "nnz: scanning *nnz.Bool, got string" "string" = true := by decide
example : strContains "abc" "ac" = false := by decide

/-- Claim C1: for every wrapper type (Bool, Int, Int64, Float64, String,
Time), `Scan` of the null sentinel succeeds and sets the wrapper to the
primitive's zero value; `Value` of a zero-valued wrapper returns the null
sentinel with no error; `MarshalJSON` of a zero-valued wrapper produces the
JSON `null` literal; and `UnmarshalJSON` of the text `null` succeeds and
sets the wrapper to the zero value. -/
theorem c1_zero_null_correspondence :
    (∀ b : Bool, nnz.Bool.Scan b .null = (false, none)) ∧
    nnz.Bool.Value false = (.null, none) ∧
    nnz.Bool.MarshalJSON false = ("null", none) ∧
    (∀ b : Bool, nnz.Bool.UnmarshalJSON b "null" = (false, none)) ∧
    (∀ i : ℤ, nnz.Int.Scan i .null = (0, none)) ∧
    nnz.Int.Value 0 = (.null, none) ∧
    nnz.Int.MarshalJSON 0 = ("null", none) ∧
    (∀ i : ℤ, nnz.Int.UnmarshalJSON i "null" = (0, none)) ∧
    (∀ i : ℤ, nnz.Int64.Scan i .null = (0, none)) ∧
    nnz.Int64.Value 0 = (.null, none) ∧
    nnz.Int64.MarshalJSON 0 = ("null", none) ∧
    (∀ i : ℤ, nnz.Int64.UnmarshalJSON i "null" = (0, none)) ∧
    (∀ f : ℚ, nnz.Float64.Scan f .null = (0, none)) ∧
    nnz.Float64.Value 0 = (.null, none) ∧
    nnz.Float64.MarshalJSON 0 = ("null", none) ∧
    (∀ f : ℚ, nnz.Float64.UnmarshalJSON f "null" = (0, none)) ∧
    (∀ s : String, nnz.String.Scan s .null = ("", none)) ∧
    nnz.String.Value "" = (.null, none) ∧
    nnz.String.MarshalJSON "" = ("null", none) ∧
    (∀ s : String, nnz.String.UnmarshalJSON s "null" = ("", none)) ∧
    (∀ t : GoTime, nnz.Time.Scan t .null = (goZeroTime, none)) ∧
    nnz.Time.Value goZeroTime = (.null, none) ∧
    nnz.Time.MarshalJSON goZeroTime = ("null", none) ∧
    (∀ t : GoTime, nnz.Time.UnmarshalJSON t "null" = (goZeroTime, none)) :=
  ⟨fun _ => rfl, rfl, rfl, fun _ => rfl,
   fun _ => rfl, rfl, rfl, fun _ => rfl,
   fun _ => rfl, rfl, rfl, fun _ => rfl,
   fun _ => rfl, rfl, rfl, fun _ => rfl,
   fun _ => rfl, rfl, rfl, fun _ => rfl,
   fun _ => rfl, by decide, by decide, fun _ => rfl⟩

/-- Claim C2: database round trip — for every wrapper type and every
non-zero primitive value `v`, `Value` of the wrapper holding `v` succeeds,
and `Scan` of a fresh (zero) wrapper on the produced driver value succeeds
and reproduces `v` exactly. -/
theorem c2_db_round_trip :
    (∀ b : Bool, b ≠ false → (nnz.Bool.Value b).2 = none ∧
      nnz.Bool.Scan false (nnz.Bool.Value b).1 = (b, none)) ∧
    (∀ i : ℤ, i ≠ 0 → (nnz.Int.Value i).2 = none ∧
      nnz.Int.Scan 0 (nnz.Int.Value i).1 = (i, none)) ∧
    (∀ i : ℤ, i ≠ 0 → (nnz.Int64.Value i).2 = none ∧
      nnz.Int64.Scan 0 (nnz.Int64.Value i).1 = (i, none)) ∧
    (∀ f : ℚ, f ≠ 0 → (nnz.Float64.Value f).2 = none ∧
      nnz.Float64.Scan 0 (nnz.Float64.Value f).1 = (f, none)) ∧
    (∀ s : String, s ≠ "" → (nnz.String.Value s).2 = none ∧
      nnz.String.Scan "" (nnz.String.Value s).1 = (s, none)) ∧
    (∀ t : GoTime, t ≠ goZeroTime → (nnz.Time.Value t).2 = none ∧
      nnz.Time.Scan goZeroTime (nnz.Time.Value t).1 = (t, none)) := by
  refine ⟨?_, ?_, ?_, ?_, ?_, ?_⟩
  · intro b hb
    cases b with
    | false => exact absurd rfl hb
    | true => exact ⟨rfl, rfl⟩
  · intro i hi
    simp [nnz.Int.Value, nnz.Int.Scan, hi]
  · intro i hi
    simp [nnz.Int64.Value, nnz.Int64.Scan, hi]
  · intro f hf
    simp [nnz.Float64.Value, nnz.Float64.Scan, hf]
  · intro s hs
    simp [nnz.String.Value, nnz.String.Scan, hs]
  · intro t ht
    simp [nnz.Time.Value, nnz.Time.Scan, GoTime.IsZero, ht]

/-- Witness for C2: the round trip evaluated at concrete non-zero values of
each wrapper. -/
theorem c2_db_round_trip_witness :
    ((nnz.Bool.Value true).2 = none ∧
      nnz.Bool.Scan false (nnz.Bool.Value true).1 = (true, none)) ∧
    ((nnz.Int.Value 42).2 = none ∧
      nnz.Int.Scan 0 (nnz.Int.Value 42).1 = (42, none)) ∧
    ((nnz.Int64.Value (-9)).2 = none ∧
      nnz.Int64.Scan 0 (nnz.Int64.Value (-9)).1 = (-9, none)) ∧
    ((nnz.Float64.Value (mkRat 7 2)).2 = none ∧
      nnz.Float64.Scan 0 (nnz.Float64.Value (mkRat 7 2)).1 = (mkRat 7 2, none)) ∧
    ((nnz.String.Value "x").2 = none ∧
      nnz.String.Scan "" (nnz.String.Value "x").1 = ("x", none)) ∧
    ((nnz.Time.Value ⟨2023, 1, 2, 15, 4, 5⟩).2 = none ∧
      nnz.Time.Scan goZeroTime (nnz.Time.Value ⟨2023, 1, 2, 15, 4, 5⟩).1 =
        (⟨2023, 1, 2, 15, 4, 5⟩, none)) :=
  ⟨c2_db_round_trip.1 true (by decide),
   c2_db_round_trip.2.1 42 (by decide),
   c2_db_round_trip.2.2.1 (-9) (by decide),
   c2_db_round_trip.2.2.2.1 (mkRat 7 2) (by decide),
   c2_db_round_trip.2.2.2.2.1 "x" (by decide),
   c2_db_round_trip.2.2.2.2.2 ⟨2023, 1, 2, 15, 4, 5⟩ (by decide)⟩

/-- Claim C3 (code-bug evidence): the JSON round trip fails for the Time
wrapper.  Marshalling the non-zero timestamp 2023-01-02T15:04:05Z produces
the quoted RFC3339 literal, but unmarshalling that very text returns a
type-mismatch error ("nnz: unmarshaling *nnz.Time, got time.Time", the
`%T` of the shadowed zero `time.Time`) and leaves the wrapper untouched:
the source asserts `v.(time.Time)` on a generic JSON value, whose dynamic
type after `json.Unmarshal` is `string`, so the assertion can never hold. -/
theorem c3_time_json_round_trip_fails :
    nnz.Time.MarshalJSON ⟨2023, 1, 2, 15, 4, 5⟩ =
      (quoteStr ++ "2023-01-02T15:04:05Z" ++ quoteStr, none) ∧
    (∀ t : GoTime,
      nnz.Time.UnmarshalJSON t (quoteStr ++ "2023-01-02T15:04:05Z" ++ quoteStr) =
        (t, some "nnz: unmarshaling *nnz.Time, got time.Time")) := by
  constructor
  · decide
  · intro t
    unfold nnz.Time.UnmarshalJSON
    rw [show jsonParse (quoteStr ++ "2023-01-02T15:04:05Z" ++ quoteStr) =
      Except.ok (Jval.str "2023-01-02T15:04:05Z") from by decide]

/-- Claim C4 (code-bug evidence): `Time.UnmarshalJSON` of a syntactically
valid JSON string (the expected kind for the timestamp wrapper) does NOT
succeed: the parse yields a generic `string` value, the `v.(time.Time)`
assertion fails, and the type-mismatch error "nnz: unmarshaling
*nnz.Time, got time.Time" (the `%T` of the shadowed zero `time.Time`) is
returned with the wrapper unchanged. -/
theorem c4_time_unmarshal_json_valid_string_fails :
    ∀ t : GoTime,
      jsonParse (quoteStr ++ "2023-01-02T15:04:05Z" ++ quoteStr) =
        Except.ok (Jval.str "2023-01-02T15:04:05Z") ∧
      nnz.Time.UnmarshalJSON t (quoteStr ++ "2023-01-02T15:04:05Z" ++ quoteStr) =
        (t, some "nnz: unmarshaling *nnz.Time, got time.Time") := by
  intro t
  constructor
  · decide
  · unfold nnz.Time.UnmarshalJSON
    rw [show jsonParse (quoteStr ++ "2023-01-02T15:04:05Z" ++ quoteStr) =
      Except.ok (Jval.str "2023-01-02T15:04:05Z") from by decide]

/-- Claim C6: `Time.UnmarshalText` of empty text succeeds and sets the
zero timestamp; of text that parses under RFC3339 it succeeds and stores
exactly the parsed instant; of text that does not parse it returns the
parser's error (wrapper untouched). -/
theorem c6_time_unmarshal_text :
    (∀ t : GoTime, nnz.Time.UnmarshalText t "" = (goZeroTime, none)) ∧
    (∀ (t nt : GoTime) (s : String), s ≠ "" → parseRFC3339 s = some nt →
      nnz.Time.UnmarshalText t s = (nt, none)) ∧
    (∀ (t : GoTime) (s : String), s ≠ "" → parseRFC3339 s = none →
      ∃ e, nnz.Time.UnmarshalText t s = (t, some e)) := by
  refine ⟨fun t => rfl, ?_, ?_⟩
  · intro t nt s hs hp
    unfold nnz.Time.UnmarshalText
    rw [if_neg hs, hp]
  · intro t s hs hp
    unfold nnz.Time.UnmarshalText
    rw [if_neg hs, hp]
    exact ⟨_, rfl⟩

/-- Witness for C6: the RFC3339 text of the spec's scenario parses and is
stored; a non-RFC3339 text fails and leaves the wrapper unchanged. -/
theorem c6_time_unmarshal_text_witness :
    nnz.Time.UnmarshalText goZeroTime "2023-01-02T15:04:05Z" =
      (⟨2023, 1, 2, 15, 4, 5⟩, none) ∧
    (∃ e, nnz.Time.UnmarshalText ⟨2023, 1, 2, 15, 4, 5⟩ "not-a-time" =
      (⟨2023, 1, 2, 15, 4, 5⟩, some e)) :=
  ⟨c6_time_unmarshal_text.2.1 goZeroTime ⟨2023, 1, 2, 15, 4, 5⟩
      "2023-01-02T15:04:05Z" (by decide) (by decide),
   c6_time_unmarshal_text.2.2 ⟨2023, 1, 2, 15, 4, 5⟩ "not-a-time"
      (by decide) (by decide)⟩

/-- Claim C7: `Time.GobEncode` of the zero timestamp succeeds, delegating
to the timestamp's own binary codec (no null substitution on this path),
and `Time.GobDecode` of the produced bytes succeeds on any wrapper and
reproduces the zero timestamp exactly. -/
theorem c7_gob_zero_round_trip :
    nnz.Time.GobEncode goZeroTime = (timeBinary goZeroTime, none) ∧
    (∀ t : GoTime,
      nnz.Time.GobDecode t (nnz.Time.GobEncode goZeroTime).1 = (goZeroTime, none)) :=
  ⟨rfl, fun _ => rfl⟩

/-- Claim C9 counterexample: `Float64.Value` of the non-zero value 7
returns a `float64` driver value, not a 64-bit integer, refuting the claim
at that input. -/
theorem c9_float64_value_not_int64 :
    (7 : ℚ) ≠ 0 ∧
    nnz.Float64.Value 7 = (.float 7, none) ∧
    DriverValue.isInt64 (nnz.Float64.Value 7).1 = false := by decide

/-- Claim C9 (amended): for every non-zero Float64 wrapper value, `Value`
returns the underlying primitive as a 64-bit float (the driver's outbound
representation for this wrapper), with no error. -/
theorem c9_float64_value_returns_float (q : ℚ) (h : q ≠ 0) :
    nnz.Float64.Value q = (.float q, none) := by
  simp [nnz.Float64.Value, h]

/-- Witness for the amended C9 at the concrete non-zero value 7/2. -/
theorem c9_float64_value_returns_float_witness :
    nnz.Float64.Value (mkRat 7 2) = (.float (mkRat 7 2), none) :=
  c9_float64_value_returns_float (mkRat 7 2) (by decide)

/-- Claim C10: `Int.UnmarshalJSON` and `Int64.UnmarshalJSON` on a valid
JSON number succeed and store the number truncated toward zero (the
floating-point intermediate is narrowed by Go's integer conversion rather
than rejected); in particular the text `3.5` stores 3. -/
theorem c10_fractional_number_truncation :
    (∀ (i : ℤ) (data : String) (q : ℚ), jsonParse data = .ok (.num q) →
      nnz.Int.UnmarshalJSON i data = (goTrunc q, none)) ∧
    (∀ (i : ℤ) (data : String) (q : ℚ), jsonParse data = .ok (.num q) →
      nnz.Int64.UnmarshalJSON i data = (goTrunc q, none)) ∧
    (∀ i : ℤ, nnz.Int.UnmarshalJSON i "3.5" = (3, none)) ∧
    (∀ i : ℤ, nnz.Int64.UnmarshalJSON i "3.5" = (3, none)) := by
  have h35 : jsonParse "3.5" = Except.ok (Jval.num (mkRat 7 2)) := by decide
  refine ⟨?_, ?_, ?_, ?_⟩
  · intro i data q hp
    unfold nnz.Int.UnmarshalJSON
    rw [hp]
  · intro i data q hp
    unfold nnz.Int64.UnmarshalJSON
    rw [hp]
  · intro i
    unfold nnz.Int.UnmarshalJSON
    rw [h35]
    rfl
  · intro i
    unfold nnz.Int64.UnmarshalJSON
    rw [h35]
    rfl

/-- Witness for C10: the truncation conjuncts applied at the concrete JSON
text `3.5`, whose parse is the rational 7/2. -/
theorem c10_fractional_number_truncation_witness :
    nnz.Int.UnmarshalJSON 9 "3.5" = (goTrunc (mkRat 7 2), none) ∧
    nnz.Int64.UnmarshalJSON 9 "3.5" = (goTrunc (mkRat 7 2), none) :=
  ⟨c10_fractional_number_truncation.1 9 "3.5" (mkRat 7 2) (by decide),
   c10_fractional_number_truncation.2.1 9 "3.5" (mkRat 7 2) (by decide)⟩

theorem leadMatch_self (l : List Char) : leadMatch l l = true := by
  induction l with
  | nil => rfl
  | cons a as ih => simp [leadMatch, ih]

theorem leadMatch_of_append (pat xs ys : List Char) (h : leadMatch pat xs = true) :
    leadMatch pat (xs ++ ys) = true := by
  induction pat generalizing xs with
  | nil => rfl
  | cons a pa ih =>
    cases xs with
    | nil => simp [leadMatch] at h
    | cons b xb =>
      simp [leadMatch] at h ⊢
      exact ⟨h.1, ih xb h.2⟩

theorem containsSeg_nil_pat (l : List Char) : containsSeg [] l = true := by
  cases l <;> simp [containsSeg, leadMatch]

theorem containsSeg_append_left (pat xs ys : List Char)
    (h : containsSeg pat xs = true) : containsSeg pat (xs ++ ys) = true := by
  induction xs with
  | nil =>
    cases pat with
    | nil => simpa using containsSeg_nil_pat ys
    | cons a pa => simp [containsSeg, leadMatch] at h
  | cons c cs ih =>
    simp only [containsSeg, Bool.or_eq_true] at h
    rcases h with h | h
    · simpa [containsSeg] using Or.inl (leadMatch_of_append pat (c :: cs) ys h)
    · simpa [containsSeg] using Or.inr (ih h)

theorem containsSeg_append_self (pat xs : List Char) :
    containsSeg pat (xs ++ pat) = true := by
  induction xs with
  | nil =>
    cases pat with
    | nil => rfl
    | cons a pa => simp [containsSeg, leadMatch_self]
  | cons c cs ih => simpa [containsSeg] using Or.inr ih

/-- A string contains its own trailing append component. -/
theorem strContains_append_right (a b : String) : strContains (a ++ b) b = true := by
  cases a with
  | mk xs =>
    cases b with
    | mk ys =>
      show containsSeg ys (xs ++ ys) = true
      exact containsSeg_append_self ys xs

/-- Substring containment survives appending on the right. -/
theorem strContains_append_of_left (a b c : String)
    (h : strContains a c = true) : strContains (a ++ b) c = true := by
  cases a with
  | mk xs =>
    cases b with
    | mk ys =>
      cases c with
      | mk zs =>
        show containsSeg zs (xs ++ ys) = true
        exact containsSeg_append_left zs xs ys h

/-- Claim C5 counterexample: the UnmarshalJSON half of the claim is false
of the source.  `Int.UnmarshalJSON` of the valid JSON text `true` (kind
boolean, not the expected number) returns the error
"nnz: unmarshaling *nnz.Int, got float64", which does not mention the
input's actual kind (`bool`): in the source's final `else`, `v` is the
variable bound by the failed `v.(float64)` assertion — a zero `float64` —
so `%T` prints the asserted type, never the input's kind. -/
theorem c5_unmarshal_actual_kind_not_mentioned :
    jsonParse "true" = Except.ok (Jval.bool true) ∧
    nnz.Int.UnmarshalJSON 0 "true" =
      (0, some "nnz: unmarshaling *nnz.Int, got float64") ∧
    strContains "nnz: unmarshaling *nnz.Int, got float64" "bool" = false := by
  decide

/-- Claim C5 (amended): for every wrapper type, `Scan` on a non-nil value
whose dynamic type is not among the accepted set returns a type-mismatch
error mentioning both the wrapper's declared type and the actual
unexpected type; `UnmarshalJSON` on valid JSON whose kind is not the
expected one returns a type-mismatch error mentioning the wrapper's
declared type and the wrapper's own asserted (expected) Go type — bool /
float64 / string / time.Time, the shadowed assertion variable — not the
input's actual kind.  The wrapper is unchanged in every case. -/
theorem c5_type_mismatch_errors_amended :
    (∀ (b : Bool) (v : DriverValue), v ≠ .null → boolAccepts v = false →
      ∃ e, nnz.Bool.Scan b v = (b, some e) ∧
        strContains e "*nnz.Bool" = true ∧ strContains e v.goTypeName = true) ∧
    (∀ (i : ℤ) (v : DriverValue), v ≠ .null → int64Accepts v = false →
      ∃ e, nnz.Int.Scan i v = (i, some e) ∧
        strContains e "*nnz.Int" = true ∧ strContains e v.goTypeName = true) ∧
    (∀ (i : ℤ) (v : DriverValue), v ≠ .null → int64Accepts v = false →
      ∃ e, nnz.Int64.Scan i v = (i, some e) ∧
        strContains e "*nnz.Int64" = true ∧ strContains e v.goTypeName = true) ∧
    (∀ (f : ℚ) (v : DriverValue), v ≠ .null → floatAccepts v = false →
      ∃ e, nnz.Float64.Scan f v = (f, some e) ∧
        strContains e "*nnz.Float64" = true ∧ strContains e v.goTypeName = true) ∧
    (∀ (s : String) (v : DriverValue), v ≠ .null → stringAccepts v = false →
      ∃ e, nnz.String.Scan s v = (s, some e) ∧
        strContains e "*nnz.String" = true ∧ strContains e v.goTypeName = true) ∧
    (∀ (t : GoTime) (v : DriverValue), v ≠ .null → timeAccepts v = false →
      ∃ e, nnz.Time.Scan t v = (t, some e) ∧
        strContains e "*nnz.Time" = true ∧ strContains e v.goTypeName = true) ∧
    (∀ (b : Bool) (data : String) (j : Jval), jsonParse data = .ok j →
      j ≠ .null → jsonKindBool j = false →
      ∃ e, nnz.Bool.UnmarshalJSON b data = (b, some e) ∧
        strContains e "*nnz.Bool" = true ∧
        e = "nnz: unmarshaling *nnz.Bool, got bool") ∧
    (∀ (i : ℤ) (data : String) (j : Jval), jsonParse data = .ok j →
      j ≠ .null → jsonKindNum j = false →
      ∃ e, nnz.Int.UnmarshalJSON i data = (i, some e) ∧
        strContains e "*nnz.Int" = true ∧
        e = "nnz: unmarshaling *nnz.Int, got float64") ∧
    (∀ (i : ℤ) (data : String) (j : Jval), jsonParse data = .ok j →
      j ≠ .null → jsonKindNum j = false →
      ∃ e, nnz.Int64.UnmarshalJSON i data = (i, some e) ∧
        strContains e "*nnz.Int64" = true ∧
        e = "nnz: unmarshaling *nnz.Int64, got float64") ∧
    (∀ (f : ℚ) (data : String) (j : Jval), jsonParse data = .ok j →
      j ≠ .null → jsonKindNum j = false →
      ∃ e, nnz.Float64.UnmarshalJSON f data = (f, some e) ∧
        strContains e "*nnz.Float64" = true ∧
        e = "nnz: unmarshaling *nnz.Float64, got float64") ∧
    (∀ (s : String) (data : String) (j : Jval), jsonParse data = .ok j →
      j ≠ .null → jsonKindStr j = false →
      ∃ e, nnz.String.UnmarshalJSON s data = (s, some e) ∧
        strContains e "*nnz.String" = true ∧
        e = "nnz: unmarshaling *nnz.String, got string") ∧
    (∀ (t : GoTime) (data : String) (j : Jval), jsonParse data = .ok j →
      j ≠ .null → jsonKindStr j = false →
      ∃ e, nnz.Time.UnmarshalJSON t data = (t, some e) ∧
        strContains e "*nnz.Time" = true ∧
        e = "nnz: unmarshaling *nnz.Time, got time.Time") := by
  refine ⟨?_, ?_, ?_, ?_, ?_, ?_, ?_, ?_, ?_, ?_, ?_, ?_⟩
  · intro b v hnull hacc
    cases v with
    | null => exact absurd rfl hnull
    | bool x => simp [boolAccepts] at hacc
    | int64 x => exact ⟨_, rfl, strContains_append_of_left _ _ _ (by decide), strContains_append_right _ _⟩
    | float x => exact ⟨_, rfl, strContains_append_of_left _ _ _ (by decide), strContains_append_right _ _⟩
    | str x => exact ⟨_, rfl, strContains_append_of_left _ _ _ (by decide), strContains_append_right _ _⟩
    | bytes x => exact ⟨_, rfl, strContains_append_of_left _ _ _ (by decide), strContains_append_right _ _⟩
    | time x => exact ⟨_, rfl, strContains_append_of_left _ _ _ (by decide), strContains_append_right _ _⟩
  · intro i v hnull hacc
    cases v with
    | null => exact absurd rfl hnull
    | int64 x => simp [int64Accepts] at hacc
    | bool x => exact ⟨_, rfl, strContains_append_of_left _ _ _ (by decide), strContains_append_right _ _⟩
    | float x => exact ⟨_, rfl, strContains_append_of_left _ _ _ (by decide), strContains_append_right _ _⟩
    | str x => exact ⟨_, rfl, strContains_append_of_left _ _ _ (by decide), strContains_append_right _ _⟩
    | bytes x => exact ⟨_, rfl, strContains_append_of_left _ _ _ (by decide), strContains_append_right _ _⟩
    | time x => exact ⟨_, rfl, strContains_append_of_left _ _ _ (by decide), strContains_append_right _ _⟩
  · intro i v hnull hacc
    cases v with
    | null => exact absurd rfl hnull
    | int64 x => simp [int64Accepts] at hacc
    | bool x => exact ⟨_, rfl, strContains_append_of_left _ _ _ (by decide), strContains_append_right _ _⟩
    | float x => exact ⟨_, rfl, strContains_append_of_left _ _ _ (by decide), strContains_append_right _ _⟩
    | str x => exact ⟨_, rfl, strContains_append_of_left _ _ _ (by decide), strContains_append_right _ _⟩
    | bytes x => exact ⟨_, rfl, strContains_append_of_left _ _ _ (by decide), strContains_append_right _ _⟩
    | time x => exact ⟨_, rfl, strContains_append_of_left _ _ _ (by decide), strContains_append_right _ _⟩
  · intro f v hnull hacc
    cases v with
    | null => exact absurd rfl hnull
    | float x => simp [floatAccepts] at hacc
    | bool x => exact ⟨_, rfl, strContains_append_of_left _ _ _ (by decide), strContains_append_right _ _⟩
    | int64 x => exact ⟨_, rfl, strContains_append_of_left _ _ _ (by decide), strContains_append_right _ _⟩
    | str x => exact ⟨_, rfl, strContains_append_of_left _ _ _ (by decide), strContains_append_right _ _⟩
    | bytes x => exact ⟨_, rfl, strContains_append_of_left _ _ _ (by decide), strContains_append_right _ _⟩
    | time x => exact ⟨_, rfl, strContains_append_of_left _ _ _ (by decide), strContains_append_right _ _⟩
  · intro s v hnull hacc
    cases v with
    | null => exact absurd rfl hnull
    | str x => simp [stringAccepts] at hacc
    | bytes x => simp [stringAccepts] at hacc
    | bool x => exact ⟨_, rfl, strContains_append_of_left _ _ _ (by decide), strContains_append_right _ _⟩
    | int64 x => exact ⟨_, rfl, strContains_append_of_left _ _ _ (by decide), strContains_append_right _ _⟩
    | float x => exact ⟨_, rfl, strContains_append_of_left _ _ _ (by decide), strContains_append_right _ _⟩
    | time x => exact ⟨_, rfl, strContains_append_of_left _ _ _ (by decide), strContains_append_right _ _⟩
  · intro t v hnull hacc
    cases v with
    | null => exact absurd rfl hnull
    | time x => simp [timeAccepts] at hacc
    | bool x => exact ⟨_, rfl, strContains_append_of_left _ _ _ (by decide), strContains_append_right _ _⟩
    | int64 x => exact ⟨_, rfl, strContains_append_of_left _ _ _ (by decide), strContains_append_right _ _⟩
    | float x => exact ⟨_, rfl, strContains_append_of_left _ _ _ (by decide), strContains_append_right _ _⟩
    | str x => exact ⟨_, rfl, strContains_append_of_left _ _ _ (by decide), strContains_append_right _ _⟩
    | bytes x => exact ⟨_, rfl, strContains_append_of_left _ _ _ (by decide), strContains_append_right _ _⟩
  · intro b data j hp hnull hkind
    cases j with
    | null => exact absurd rfl hnull
    | bool x => simp [jsonKindBool] at hkind
    | num x =>
      exact ⟨_, by unfold nnz.Bool.UnmarshalJSON; rw [hp], by decide, rfl⟩
    | str x =>
      exact ⟨_, by unfold nnz.Bool.UnmarshalJSON; rw [hp], by decide, rfl⟩
  · intro i data j hp hnull hkind
    cases j with
    | null => exact absurd rfl hnull
    | num x => simp [jsonKindNum] at hkind
    | bool x =>
      exact ⟨_, by unfold nnz.Int.UnmarshalJSON; rw [hp], by decide, rfl⟩
    | str x =>
      exact ⟨_, by unfold nnz.Int.UnmarshalJSON; rw [hp], by decide, rfl⟩
  · intro i data j hp hnull hkind
    cases j with
    | null => exact absurd rfl hnull
    | num x => simp [jsonKindNum] at hkind
    | bool x =>
      exact ⟨_, by unfold nnz.Int64.UnmarshalJSON; rw [hp], by decide, rfl⟩
    | str x =>
      exact ⟨_, by unfold nnz.Int64.UnmarshalJSON; rw [hp], by decide, rfl⟩
  · intro f data j hp hnull hkind
    cases j with
    | null => exact absurd rfl hnull
    | num x => simp [jsonKindNum] at hkind
    | bool x =>
      exact ⟨_, by unfold nnz.Float64.UnmarshalJSON; rw [hp], by decide, rfl⟩
    | str x =>
      exact ⟨_, by unfold nnz.Float64.UnmarshalJSON; rw [hp], by decide, rfl⟩
  · intro s data j hp hnull hkind
    cases j with
    | null => exact absurd rfl hnull
    | str x => simp [jsonKindStr] at hkind
    | bool x =>
      exact ⟨_, by unfold nnz.String.UnmarshalJSON; rw [hp], by decide, rfl⟩
    | num x =>
      exact ⟨_, by unfold nnz.String.UnmarshalJSON; rw [hp], by decide, rfl⟩
  · intro t data j hp hnull hkind
    cases j with
    | null => exact absurd rfl hnull
    | str x => simp [jsonKindStr] at hkind
    | bool x =>
      exact ⟨_, by unfold nnz.Time.UnmarshalJSON; rw [hp], by decide, rfl⟩
    | num x =>
      exact ⟨_, by unfold nnz.Time.UnmarshalJSON; rw [hp], by decide, rfl⟩

/-- Witness for the amended C5: each mismatch case evaluated at a concrete
input, e.g. `Bool.Scan` of the string `"true"` (the spec's scenario 4). -/
theorem c5_type_mismatch_errors_amended_witness :
    (∃ e, nnz.Bool.Scan false (.str "true") = (false, some e) ∧
      strContains e "*nnz.Bool" = true ∧ strContains e "string" = true) ∧
    (∃ e, nnz.Int.Scan 0 (.str "x") = (0, some e) ∧
      strContains e "*nnz.Int" = true ∧ strContains e "string" = true) ∧
    (∃ e, nnz.Int64.Scan 0 (.bool true) = (0, some e) ∧
      strContains e "*nnz.Int64" = true ∧ strContains e "bool" = true) ∧
    (∃ e, nnz.Float64.Scan 0 (.int64 1) = (0, some e) ∧
      strContains e "*nnz.Float64" = true ∧ strContains e "int64" = true) ∧
    (∃ e, nnz.String.Scan "" (.int64 1) = ("", some e) ∧
      strContains e "*nnz.String" = true ∧ strContains e "int64" = true) ∧
    (∃ e, nnz.Time.Scan goZeroTime (.str "now") = (goZeroTime, some e) ∧
      strContains e "*nnz.Time" = true ∧ strContains e "string" = true) ∧
    (∃ e, nnz.Bool.UnmarshalJSON false "42" = (false, some e) ∧
      strContains e "*nnz.Bool" = true ∧
      e = "nnz: unmarshaling *nnz.Bool, got bool") ∧
    (∃ e, nnz.Int.UnmarshalJSON 0 "false" = (0, some e) ∧
      strContains e "*nnz.Int" = true ∧
      e = "nnz: unmarshaling *nnz.Int, got float64") ∧
    (∃ e, nnz.Int64.UnmarshalJSON 0 (quoteStr ++ "x" ++ quoteStr) = (0, some e) ∧
      strContains e "*nnz.Int64" = true ∧
      e = "nnz: unmarshaling *nnz.Int64, got float64") ∧
    (∃ e, nnz.Float64.UnmarshalJSON 0 "false" = (0, some e) ∧
      strContains e "*nnz.Float64" = true ∧
      e = "nnz: unmarshaling *nnz.Float64, got float64") ∧
    (∃ e, nnz.String.UnmarshalJSON "" "42" = ("", some e) ∧
      strContains e "*nnz.String" = true ∧
      e = "nnz: unmarshaling *nnz.String, got string") ∧
    (∃ e, nnz.Time.UnmarshalJSON goZeroTime "42" = (goZeroTime, some e) ∧
      strContains e "*nnz.Time" = true ∧
      e = "nnz: unmarshaling *nnz.Time, got time.Time") :=
  ⟨c5_type_mismatch_errors_amended.1 false (.str "true") (by decide) (by decide),
   c5_type_mismatch_errors_amended.2.1 0 (.str "x") (by decide) (by decide),
   c5_type_mismatch_errors_amended.2.2.1 0 (.bool true) (by decide) (by decide),
   c5_type_mismatch_errors_amended.2.2.2.1 0 (.int64 1) (by decide) (by decide),
   c5_type_mismatch_errors_amended.2.2.2.2.1 "" (.int64 1) (by decide) (by decide),
   c5_type_mismatch_errors_amended.2.2.2.2.2.1 goZeroTime (.str "now") (by decide) (by decide),
   c5_type_mismatch_errors_amended.2.2.2.2.2.2.1 false "42" (.num 42)
     (by decide) (by decide) (by decide),
   c5_type_mismatch_errors_amended.2.2.2.2.2.2.2.1 0 "false" (.bool false)
     (by decide) (by decide) (by decide),
   c5_type_mismatch_errors_amended.2.2.2.2.2.2.2.2.1 0 (quoteStr ++ "x" ++ quoteStr) (.str "x")
     (by decide) (by decide) (by decide),
   c5_type_mismatch_errors_amended.2.2.2.2.2.2.2.2.2.1 0 "false" (.bool false)
     (by decide) (by decide) (by decide),
   c5_type_mismatch_errors_amended.2.2.2.2.2.2.2.2.2.2.1 "" "42" (.num 42)
     (by decide) (by decide) (by decide),
   c5_type_mismatch_errors_amended.2.2.2.2.2.2.2.2.2.2.2 goZeroTime "42" (.num 42)
     (by decide) (by decide) (by decide)⟩

/-- Claim C8: atomicity on failure — for every wrapper type and every
prior stored value, whenever `Scan`, `UnmarshalJSON` or
`Time.UnmarshalText` returns an error (type mismatch or parse failure),
the wrapper's stored value is exactly what it was before the call. -/
theorem c8_failure_atomicity :
    (∀ (b : Bool) (v : DriverValue) (e : String),
      (nnz.Bool.Scan b v).2 = some e → (nnz.Bool.Scan b v).1 = b) ∧
    (∀ (i : ℤ) (v : DriverValue) (e : String),
      (nnz.Int.Scan i v).2 = some e → (nnz.Int.Scan i v).1 = i) ∧
    (∀ (i : ℤ) (v : DriverValue) (e : String),
      (nnz.Int64.Scan i v).2 = some e → (nnz.Int64.Scan i v).1 = i) ∧
    (∀ (f : ℚ) (v : DriverValue) (e : String),
      (nnz.Float64.Scan f v).2 = some e → (nnz.Float64.Scan f v).1 = f) ∧
    (∀ (s : String) (v : DriverValue) (e : String),
      (nnz.String.Scan s v).2 = some e → (nnz.String.Scan s v).1 = s) ∧
    (∀ (t : GoTime) (v : DriverValue) (e : String),
      (nnz.Time.Scan t v).2 = some e → (nnz.Time.Scan t v).1 = t) ∧
    (∀ (b : Bool) (data : String) (e : String),
      (nnz.Bool.UnmarshalJSON b data).2 = some e →
        (nnz.Bool.UnmarshalJSON b data).1 = b) ∧
    (∀ (i : ℤ) (data : String) (e : String),
      (nnz.Int.UnmarshalJSON i data).2 = some e →
        (nnz.Int.UnmarshalJSON i data).1 = i) ∧
    (∀ (i : ℤ) (data : String) (e : String),
      (nnz.Int64.UnmarshalJSON i data).2 = some e →
        (nnz.Int64.UnmarshalJSON i data).1 = i) ∧
    (∀ (f : ℚ) (data : String) (e : String),
      (nnz.Float64.UnmarshalJSON f data).2 = some e →
        (nnz.Float64.UnmarshalJSON f data).1 = f) ∧
    (∀ (s : String) (data : String) (e : String),
      (nnz.String.UnmarshalJSON s data).2 = some e →
        (nnz.String.UnmarshalJSON s data).1 = s) ∧
    (∀ (t : GoTime) (data : String) (e : String),
      (nnz.Time.UnmarshalJSON t data).2 = some e →
        (nnz.Time.UnmarshalJSON t data).1 = t) ∧
    (∀ (t : GoTime) (data : String) (e : String),
      (nnz.Time.UnmarshalText t data).2 = some e →
        (nnz.Time.UnmarshalText t data).1 = t) := by
  refine ⟨?_, ?_, ?_, ?_, ?_, ?_, ?_, ?_, ?_, ?_, ?_, ?_, ?_⟩
  · intro b v e h
    cases v <;> simp_all [nnz.Bool.Scan]
  · intro i v e h
    cases v <;> simp_all [nnz.Int.Scan]
  · intro i v e h
    cases v <;> simp_all [nnz.Int64.Scan]
  · intro f v e h
    cases v <;> simp_all [nnz.Float64.Scan]
  · intro s v e h
    cases v <;> simp_all [nnz.String.Scan]
  · intro t v e h
    cases v <;> simp_all [nnz.Time.Scan]
  · intro b data e h
    unfold nnz.Bool.UnmarshalJSON at h ⊢
    cases hp : jsonParse data with
    | error err => rfl
    | ok j => cases j <;> simp_all
  · intro i data e h
    unfold nnz.Int.UnmarshalJSON at h ⊢
    cases hp : jsonParse data with
    | error err => rfl
    | ok j => cases j <;> simp_all
  · intro i data e h
    unfold nnz.Int64.UnmarshalJSON at h ⊢
    cases hp : jsonParse data with
    | error err => rfl
    | ok j => cases j <;> simp_all
  · intro f data e h
    unfold nnz.Float64.UnmarshalJSON at h ⊢
    cases hp : jsonParse data with
    | error err => rfl
    | ok j => cases j <;> simp_all
  · intro s data e h
    unfold nnz.String.UnmarshalJSON at h ⊢
    cases hp : jsonParse data with
    | error err => rfl
    | ok j => cases j <;> simp_all
  · intro t data e h
    unfold nnz.Time.UnmarshalJSON at h ⊢
    cases hp : jsonParse data with
    | error err => rfl
    | ok j => cases j <;> simp_all
  · intro t data e h
    unfold nnz.Time.UnmarshalText at h ⊢
    by_cases hd : data = ""
    · simp [hd] at h
    · rw [if_neg hd] at h ⊢
      cases hp : parseRFC3339 data with
      | some nt => simp [hp] at h
      | none => rfl

/-- Witness for C8: each failure case evaluated at a concrete input with a
concrete prior value, showing the prior value is preserved. -/
theorem c8_failure_atomicity_witness :
    (nnz.Bool.Scan true (.str "x")).1 = true ∧
    (nnz.Int.Scan 5 (.bool true)).1 = 5 ∧
    (nnz.Int64.Scan 5 (.str "x")).1 = 5 ∧
    (nnz.Float64.Scan 1 (.str "x")).1 = 1 ∧
    (nnz.String.Scan "a" (.int64 3)).1 = "a" ∧
    (nnz.Time.Scan ⟨2023, 1, 2, 15, 4, 5⟩ (.str "x")).1 = ⟨2023, 1, 2, 15, 4, 5⟩ ∧
    (nnz.Bool.UnmarshalJSON true "42").1 = true ∧
    (nnz.Int.UnmarshalJSON 5 "true").1 = 5 ∧
    (nnz.Int64.UnmarshalJSON 5 "\x7b").1 = 5 ∧
    (nnz.Float64.UnmarshalJSON 1 "true").1 = 1 ∧
    (nnz.String.UnmarshalJSON "a" "42").1 = "a" ∧
    (nnz.Time.UnmarshalJSON ⟨2023, 1, 2, 15, 4, 5⟩ "42").1 = ⟨2023, 1, 2, 15, 4, 5⟩ ∧
    (nnz.Time.UnmarshalText ⟨2023, 1, 2, 15, 4, 5⟩ "garbage").1 = ⟨2023, 1, 2, 15, 4, 5⟩ :=
  ⟨c8_failure_atomicity.1 true (.str "x")
      "nnz: scanning *nnz.Bool, got string" (by decide),
   c8_failure_atomicity.2.1 5 (.bool true)
      "nnz: scanning *nnz.Int, got bool" (by decide),
   c8_failure_atomicity.2.2.1 5 (.str "x")
      "nnz: scanning *nnz.Int64, got string" (by decide),
   c8_failure_atomicity.2.2.2.1 1 (.str "x")
      "nnz: scanning *nnz.Float64, got string" (by decide),
   c8_failure_atomicity.2.2.2.2.1 "a" (.int64 3)
      "nnz: scanning *nnz.String, got int64" (by decide),
   c8_failure_atomicity.2.2.2.2.2.1 ⟨2023, 1, 2, 15, 4, 5⟩ (.str "x")
      "nnz: scanning *nnz.Time, got string" (by decide),
   c8_failure_atomicity.2.2.2.2.2.2.1 true "42"
      "nnz: unmarshaling *nnz.Bool, got bool" (by decide),
   c8_failure_atomicity.2.2.2.2.2.2.2.1 5 "true"
      "nnz: unmarshaling *nnz.Int, got float64" (by decide),
   c8_failure_atomicity.2.2.2.2.2.2.2.2.1 5 "\x7b"
      "invalid character in JSON text \x7b" (by decide),
   c8_failure_atomicity.2.2.2.2.2.2.2.2.2.1 1 "true"
      "nnz: unmarshaling *nnz.Float64, got float64" (by decide),
   c8_failure_atomicity.2.2.2.2.2.2.2.2.2.2.1 "a" "42"
      "nnz: unmarshaling *nnz.String, got string" (by decide),
   c8_failure_atomicity.2.2.2.2.2.2.2.2.2.2.2.1 ⟨2023, 1, 2, 15, 4, 5⟩ "42"
      "nnz: unmarshaling *nnz.Time, got time.Time" (by decide),
   c8_failure_atomicity.2.2.2.2.2.2.2.2.2.2.2.2 ⟨2023, 1, 2, 15, 4, 5⟩ "garbage"
      ("parsing time " ++ quoteStr ++ "garbage" ++ quoteStr ++
        " as RFC3339: cannot parse") (by decide)⟩
